import Mathlib

/-!
Verification of the call dispatch layer of stylus-sdk
(src/stylus-sdk/src/call/mod.rs).

The file embeds the three typed entry points `static_call`, `delegate_call`
and `call` exactly as written in mod.rs.  The collaborators those entry
points use — the raw call primitive (raw.rs), the error surface (error.rs),
the capability contexts (traits.rs) and the storage cache — are not part of
the visible source tree; they are modelled from the specification, each such
definition marked `Modelled from the spec:` in its doc comment.

The host environment is a function from the dispatch record (call kind,
target, payload, optional value, optional gas limit) to an outcome, so that
theorems can quantify over arbitrary callee behaviour.  Each entry point
returns, besides its result, the cache state it leaves behind and the
ordered trace of observable actions (cache flush/clear, host dispatch),
which makes the temporal claims about cache policy statable.

The conditional compilation on the `storage-cache`/`reentrant` features in
mod.rs is embedded as an explicit boolean parameter `cacheOn`: when it is
false the cache-policy step of each entry point is a no-op, exactly as when
the features are disabled.
-/

namespace StylusCall

/-- Opaque byte sequences: call payloads, success outputs, revert data.
Each byte is a `Nat`; the layer never interprets the contents. -/
abbrev Bytes := List Nat

/-- Opaque fixed-width identifier of a callable program instance
(`alloy_primitives::Address`); the layer only passes it through. -/
abbrev Address := Nat

/-- The three host call kinds named by the spec: Mutating, Static, Delegate. -/
inductive CallKind where
  | mutating
  | static
  | delegate
  deriving DecidableEq, Repr

/-- Modelled from the spec: the host call operation returns
success-with-output, revert-with-output, or a dispatch fault
(spec section 6, "From the host environment"). -/
inductive HostOutcome where
  | success (output : Bytes)
  | revert (payload : Bytes)
  | fault
  deriving DecidableEq, Repr

/-- The exact record the raw call primitive hands to the host: call kind,
target address, payload, optional value amount, optional gas limit. -/
structure Dispatch where
  kind : CallKind
  target : Address
  data : Bytes
  callValue : Option Nat
  gasLimit : Option Nat
  deriving DecidableEq, Repr

/-- The host environment, as a function from the dispatch record to the
outcome of the dispatched call. -/
abbrev Host := Dispatch → HostOutcome

/-- Modelled from the spec: the error surface (error.rs is not in the visible
source).  Spec section 7 taxonomy: CalleeReverted with payload bytes — the
`Revert` constructor that mod.rs applies via `map_err(Error::Revert)` — and
`DispatchFailed` carrying no payload. -/
inductive Error where
  | Revert (payload : Bytes)
  | DispatchFailed
  deriving DecidableEq, Repr

/-- Modelled from the spec: the raw call primitive configuration (raw.rs is
not in the visible source).  A raw call records its kind, an optional value
amount, and an optional gas limit (unset means forward all remaining). -/
structure RawCall where
  kind : CallKind
  callValue : Option Nat
  gasLimit : Option Nat
  deriving DecidableEq, Repr

/-- Modelled from the spec: constructor for a static raw call; static calls
never carry a value amount (spec section 3, Call Kind invariant). -/
def RawCall.new_static : RawCall :=
  ⟨CallKind.static, none, none⟩

/-- Modelled from the spec: the value-carrying constructor.  A value amount
is only meaningful for mutating, non-delegate calls (spec section 3), so the
value-carrying raw call dispatches the host's mutating operation. -/
def RawCall.new_with_value (value : Nat) : RawCall :=
  ⟨CallKind.mutating, some value, none⟩

/-- Modelled from the spec: constructor for a delegate raw call; delegate
calls never carry a separate value amount (spec section 3).  The visible
entry points of mod.rs never invoke it. -/
def RawCall.new_delegate : RawCall :=
  ⟨CallKind.delegate, none, none⟩

/-- Modelled from the spec: the `.gas(...)` configurator sets the resource
limit forwarded to the callee. -/
def RawCall.gas (rc : RawCall) (g : Nat) : RawCall :=
  { rc with gasLimit := some g }

/-- The dispatch record a configured raw call hands to the host for a given
target and payload. -/
def RawCall.dispatch (rc : RawCall) (target : Address) (data : Bytes) : Dispatch :=
  ⟨rc.kind, target, data, rc.callValue, rc.gasLimit⟩

/-- Modelled from the spec: executing the raw call invokes the host operation
and returns the callee's output bytes or a failure carrying opaque payload
bytes.  A dispatch fault is not distinguishable in the raw error channel that
`map_err(Error::Revert)` consumes (its payload is bytes), so it surfaces as a
generic revert with empty payload (spec section 4.1: "otherwise a generic
revert with empty payload"). -/
def RawCall.call (rc : RawCall) (host : Host) (target : Address) (data : Bytes) :
    Except Bytes Bytes :=
  match host (rc.dispatch target data) with
  | HostOutcome.success output => Except.ok output
  | HostOutcome.revert payload => Except.error payload
  | HostOutcome.fault => Except.error []

/-- Modelled from the spec: the persistent-state cache collaborator (the
storage module is not in the visible source).  `pending` are unflushed local
writes, `cached` are cached reads, `durable` is the durably persisted state;
entries are slot/value pairs. -/
structure Cache where
  pending : List (Nat × Nat)
  cached : List (Nat × Nat)
  durable : List (Nat × Nat)
  deriving DecidableEq, Repr

/-- Modelled from the spec: `flush` durably persists pending writes without
discarding cached reads (spec glossary; mod.rs comment "flush storage to
persist changes, but don't invalidate the cache"). -/
def Storage.flush (c : Cache) : Cache :=
  { c with durable := c.durable ++ c.pending, pending := [] }

/-- Modelled from the spec: `clear` persists pending changes and then
invalidates the cache, discarding all cached reads (mod.rs comment "clear the
storage to persist changes, invalidating the cache"; spec glossary). -/
def Storage.clear (c : Cache) : Cache :=
  { Storage.flush c with cached := [] }

/-- Modelled from the spec: a context carrying the static-safe capability
(traits.rs is not in the visible source).  It exposes only the remaining
resource budget; it has no value capability at all. -/
structure StaticCallContext where
  gas : Nat
  deriving DecidableEq, Repr

/-- Modelled from the spec: a mutating-capable context: it exposes the
remaining resource budget and may supply a value amount (possibly zero). -/
structure MutatingCallContext where
  gas : Nat
  value : Nat
  deriving DecidableEq, Repr

/-- Observable actions an entry point performs, in program order: the cache
policy operations and the host dispatch itself. -/
inductive Event where
  | flush
  | clear
  | dispatch (d : Dispatch)
  deriving DecidableEq, Repr

deriving instance DecidableEq for Except

/-- Everything an entry point produces: the typed result returned to the
caller, the cache state left behind, and the ordered trace of observable
actions. -/
structure CallOutcome where
  result : Except Error Bytes
  cache : Cache
  trace : List Event
  deriving DecidableEq, Repr

/-- `static_call` from mod.rs lines 41–55: when the storage-cache/reentrant
features are on, flush storage (persist changes without invalidating the
cache); then dispatch `RawCall::new_static().gas(context.gas()).call(to,
data)` and map raw failures through `Error::Revert`. -/
def static_call (cacheOn : Bool) (host : Host) (context : StaticCallContext)
    (target : Address) (data : Bytes) (cache : Cache) : CallOutcome :=
  let cache1 := if cacheOn then Storage.flush cache else cache
  let policyTrace := if cacheOn then [Event.flush] else []
  let rc := (RawCall.new_static).gas context.gas
  { result := (rc.call host target data).mapError Error.Revert
    cache := cache1
    trace := policyTrace ++ [Event.dispatch (rc.dispatch target data)] }

/-- `delegate_call` from mod.rs lines 57–76: when the features are on, clear
storage (persist changes, invalidating the cache); then — exactly as this
snapshot writes it — dispatch
`RawCall::new_with_value(context.value()).gas(context.gas()).call(to, data)`,
i.e. the value-carrying mutating constructor, not `RawCall::new_delegate`,
and map raw failures through `Error::Revert`.  (The `pub unsafe` marker on
the Rust function is a type-system attribute with no value-level content and
is not embedded.) -/
def delegate_call (cacheOn : Bool) (host : Host) (context : MutatingCallContext)
    (target : Address) (data : Bytes) (cache : Cache) : CallOutcome :=
  let cache1 := if cacheOn then Storage.clear cache else cache
  let policyTrace := if cacheOn then [Event.clear] else []
  let rc := (RawCall.new_with_value context.value).gas context.gas
  { result := (rc.call host target data).mapError Error.Revert
    cache := cache1
    trace := policyTrace ++ [Event.dispatch (rc.dispatch target data)] }

/-- `call` from mod.rs lines 78–89: when the features are on, clear storage
(persist changes, invalidating the cache); then dispatch
`RawCall::new_with_value(context.value()).gas(context.gas()).call(to, data)`
and map raw failures through `Error::Revert`. -/
def call (cacheOn : Bool) (host : Host) (context : MutatingCallContext)
    (target : Address) (data : Bytes) (cache : Cache) : CallOutcome :=
  let cache1 := if cacheOn then Storage.clear cache else cache
  let policyTrace := if cacheOn then [Event.clear] else []
  let rc := (RawCall.new_with_value context.value).gas context.gas
  { result := (rc.call host target data).mapError Error.Revert
    cache := cache1
    trace := policyTrace ++ [Event.dispatch (rc.dispatch target data)] }

/-- Claim C1, evidence of the code bug: at a mutating context exposing value 5
and gas 100, `delegate_call` dispatches the value-carrying mutating raw call,
forwarding value `some 5` (and kind mutating, not delegate) to the host.  The
claim — and the function's own documentation, "Delegate calls the contract at
the given address" — require a delegate dispatch with no separate value. -/
theorem delegate_call_forwards_context_value :
    (delegate_call true (fun _ => HostOutcome.success [1]) ⟨100, 5⟩ 7 [222]
        ⟨[], [], []⟩).trace
      = [Event.clear,
          Event.dispatch ⟨CallKind.mutating, 7, [222], some 5, some 100⟩] := by
  rfl

/-- Claim C2, counterexample: with a host that faults on every dispatch (the
spec's model of a target with no executable code), each entry point returns
`Error.Revert []` — never `Error.DispatchFailed` — because mod.rs maps every
raw-call failure through `Error::Revert`. -/
theorem no_code_fault_is_not_dispatch_failed :
    (call true (fun _ => HostOutcome.fault) ⟨10, 0⟩ 7 [1] ⟨[], [], []⟩).result
        = Except.error (Error.Revert [])
    ∧ (call true (fun _ => HostOutcome.fault) ⟨10, 0⟩ 7 [1] ⟨[], [], []⟩).result
        ≠ Except.error Error.DispatchFailed
    ∧ (static_call true (fun _ => HostOutcome.fault) ⟨10⟩ 7 [1] ⟨[], [], []⟩).result
        ≠ Except.error Error.DispatchFailed
    ∧ (delegate_call true (fun _ => HostOutcome.fault) ⟨10, 0⟩ 7 [1] ⟨[], [], []⟩).result
        ≠ Except.error Error.DispatchFailed := by
  refine ⟨rfl, ?_, ?_, ?_⟩ <;> decide

/-- Claim C2 as amended: for every context, target, payload and cache state,
when the host faults on the dispatch an entry point issues (e.g. a target with
no executable code), that entry point returns the Revert (CalleeReverted) kind
with empty payload; the entry points never construct `DispatchFailed`. -/
theorem fault_surfaces_as_empty_revert (cacheOn : Bool) (host : Host)
    (sctx : StaticCallContext) (mctx : MutatingCallContext)
    (target : Address) (data : Bytes) (cache : Cache)
    (hs : host ⟨CallKind.static, target, data, none, some sctx.gas⟩
        = HostOutcome.fault)
    (hm : host ⟨CallKind.mutating, target, data, some mctx.value, some mctx.gas⟩
        = HostOutcome.fault) :
    (static_call cacheOn host sctx target data cache).result
        = Except.error (Error.Revert [])
    ∧ (call cacheOn host mctx target data cache).result
        = Except.error (Error.Revert [])
    ∧ (delegate_call cacheOn host mctx target data cache).result
        = Except.error (Error.Revert []) := by
  refine ⟨?_, ?_, ?_⟩ <;>
    simp [static_call, call, delegate_call, RawCall.call, RawCall.dispatch,
      RawCall.gas, RawCall.new_static, RawCall.new_with_value, hs, hm,
      Except.mapError]

/-- Witness for `fault_surfaces_as_empty_revert` at concrete inputs. -/
theorem fault_surfaces_as_empty_revert_witness :
    (static_call true (fun _ => HostOutcome.fault) ⟨10⟩ 7 [1] ⟨[], [], []⟩).result
        = Except.error (Error.Revert [])
    ∧ (call true (fun _ => HostOutcome.fault) ⟨10, 0⟩ 7 [1] ⟨[], [], []⟩).result
        = Except.error (Error.Revert [])
    ∧ (delegate_call true (fun _ => HostOutcome.fault) ⟨10, 0⟩ 7 [1] ⟨[], [], []⟩).result
        = Except.error (Error.Revert []) :=
  fault_surfaces_as_empty_revert true (fun _ => HostOutcome.fault) ⟨10⟩ ⟨10, 0⟩
    7 [1] ⟨[], [], []⟩ rfl rfl

/-- Claim C3: with the storage cache collaborator present, `call` and
`delegate_call` each perform the cache clear strictly before the host
dispatch (the trace is exactly clear-then-dispatch), and the cache state in
force from the clear onward has no pending (unflushed) writes, so no call
transfers control while unflushed local writes exist. -/
theorem mutating_calls_clear_before_dispatch (host : Host)
    (mctx : MutatingCallContext) (target : Address) (data : Bytes)
    (cache : Cache) :
    (call true host mctx target data cache).trace
        = [Event.clear,
            Event.dispatch
              ⟨CallKind.mutating, target, data, some mctx.value, some mctx.gas⟩]
    ∧ (delegate_call true host mctx target data cache).trace
        = [Event.clear,
            Event.dispatch
              ⟨CallKind.mutating, target, data, some mctx.value, some mctx.gas⟩]
    ∧ (call true host mctx target data cache).cache.pending = []
    ∧ (delegate_call true host mctx target data cache).cache.pending = [] :=
  ⟨rfl, rfl, rfl, rfl⟩

/-- Claim C4: `static_call` never forwards a value amount to the raw call (the
dispatch carries `none`), never emits a cache clear/invalidation in any
configuration, preserves all cached reads, and with the cache present its
cache action is exactly a flush. -/
theorem static_call_no_value_never_clears (cacheOn : Bool) (host : Host)
    (sctx : StaticCallContext) (target : Address) (data : Bytes)
    (cache : Cache) :
    (static_call cacheOn host sctx target data cache).trace
        = (if cacheOn then [Event.flush] else [])
          ++ [Event.dispatch ⟨CallKind.static, target, data, none, some sctx.gas⟩]
    ∧ Event.clear ∉ (static_call cacheOn host sctx target data cache).trace
    ∧ (static_call cacheOn host sctx target data cache).cache.cached
        = cache.cached
    ∧ (static_call true host sctx target data cache).cache
        = Storage.flush cache := by
  cases cacheOn <;>
    simp [static_call, Storage.flush, RawCall.dispatch, RawCall.gas,
      RawCall.new_static]

/-- Claim C5: whenever the host reports that the callee reverted with payload
`p` on the dispatch `call` issues, `call` returns `Error.Revert p` — the
payload is passed through byte for byte, unmodified, including empty `p`. -/
theorem call_revert_payload_passthrough (cacheOn : Bool) (host : Host)
    (mctx : MutatingCallContext) (target : Address) (data : Bytes)
    (cache : Cache) (p : Bytes)
    (h : host ⟨CallKind.mutating, target, data, some mctx.value, some mctx.gas⟩
        = HostOutcome.revert p) :
    (call cacheOn host mctx target data cache).result
      = Except.error (Error.Revert p) := by
  simp [call, RawCall.call, RawCall.dispatch, RawCall.gas,
    RawCall.new_with_value, h, Except.mapError]

/-- Witness for `call_revert_payload_passthrough`: a callee reverting with
payload 0xdeadbeef yields exactly that payload back. -/
theorem call_revert_payload_passthrough_witness :
    (call true (fun _ => HostOutcome.revert [222, 173, 190, 239]) ⟨10, 0⟩ 7 [1]
        ⟨[], [], []⟩).result
      = Except.error (Error.Revert [222, 173, 190, 239]) :=
  call_revert_payload_passthrough true
    (fun _ => HostOutcome.revert [222, 173, 190, 239]) ⟨10, 0⟩ 7 [1]
    ⟨[], [], []⟩ [222, 173, 190, 239] rfl

/-- Claim C6: whenever the host succeeds with output bytes on the dispatches
the entry points issue, all three entry points return exactly those bytes as
success output, and each one's dispatch (the last trace event) carries the
gas limit read from its context. -/
theorem success_output_and_gas_forwarded (cacheOn : Bool) (host : Host)
    (sctx : StaticCallContext) (mctx : MutatingCallContext)
    (target : Address) (data : Bytes) (cache : Cache) (output : Bytes)
    (hs : host ⟨CallKind.static, target, data, none, some sctx.gas⟩
        = HostOutcome.success output)
    (hm : host ⟨CallKind.mutating, target, data, some mctx.value, some mctx.gas⟩
        = HostOutcome.success output) :
    (static_call cacheOn host sctx target data cache).result = Except.ok output
    ∧ (call cacheOn host mctx target data cache).result = Except.ok output
    ∧ (delegate_call cacheOn host mctx target data cache).result = Except.ok output
    ∧ (static_call cacheOn host sctx target data cache).trace.getLast?
        = some (Event.dispatch
            ⟨CallKind.static, target, data, none, some sctx.gas⟩)
    ∧ (call cacheOn host mctx target data cache).trace.getLast?
        = some (Event.dispatch
            ⟨CallKind.mutating, target, data, some mctx.value, some mctx.gas⟩)
    ∧ (delegate_call cacheOn host mctx target data cache).trace.getLast?
        = some (Event.dispatch
            ⟨CallKind.mutating, target, data, some mctx.value, some mctx.gas⟩) := by
  refine ⟨?_, ?_, ?_, ?_, ?_, ?_⟩ <;>
    simp [static_call, call, delegate_call, RawCall.call, RawCall.dispatch,
      RawCall.gas, RawCall.new_static, RawCall.new_with_value, hs, hm,
      Except.mapError, List.getLast?_concat]

/-- Witness for `success_output_and_gas_forwarded` at concrete inputs. -/
theorem success_output_and_gas_forwarded_witness :
    (static_call true (fun _ => HostOutcome.success [1]) ⟨9⟩ 3 [2] ⟨[], [], []⟩).result
        = Except.ok [1]
    ∧ (call true (fun _ => HostOutcome.success [1]) ⟨9, 4⟩ 3 [2] ⟨[], [], []⟩).result
        = Except.ok [1]
    ∧ (delegate_call true (fun _ => HostOutcome.success [1]) ⟨9, 4⟩ 3 [2] ⟨[], [], []⟩).result
        = Except.ok [1]
    ∧ (static_call true (fun _ => HostOutcome.success [1]) ⟨9⟩ 3 [2] ⟨[], [], []⟩).trace.getLast?
        = some (Event.dispatch ⟨CallKind.static, 3, [2], none, some 9⟩)
    ∧ (call true (fun _ => HostOutcome.success [1]) ⟨9, 4⟩ 3 [2] ⟨[], [], []⟩).trace.getLast?
        = some (Event.dispatch ⟨CallKind.mutating, 3, [2], some 4, some 9⟩)
    ∧ (delegate_call true (fun _ => HostOutcome.success [1]) ⟨9, 4⟩ 3 [2] ⟨[], [], []⟩).trace.getLast?
        = some (Event.dispatch ⟨CallKind.mutating, 3, [2], some 4, some 9⟩) :=
  success_output_and_gas_forwarded true (fun _ => HostOutcome.success [1]) ⟨9⟩
    ⟨9, 4⟩ 3 [2] ⟨[], [], []⟩ [1] rfl rfl

/-- Claim C7: in this snapshot `delegate_call` and `call` are behaviourally
identical on every input — same cache action, same value-carrying mutating
dispatch built from the context's value and gas, same result mapping — the
only difference in the source being the `pub` safety marker, which has no
value-level content. -/
theorem delegate_call_behaves_as_call (cacheOn : Bool) (host : Host)
    (mctx : MutatingCallContext) (target : Address) (data : Bytes)
    (cache : Cache) :
    delegate_call cacheOn host mctx target data cache
      = call cacheOn host mctx target data cache :=
  rfl

/-- Claim C10: with the cache collaborator present, even when an entry point's
call fails (its result is an error), the cache action has still taken effect:
`static_call` leaves the cache flushed and `call`/`delegate_call` leave it
cleared, with no rollback of the cache action on error. -/
theorem cache_action_survives_call_failure (host : Host)
    (sctx : StaticCallContext) (mctx : MutatingCallContext)
    (target : Address) (data : Bytes) (cache : Cache) (es em ed : Error)
    (hs : (static_call true host sctx target data cache).result
        = Except.error es)
    (hm : (call true host mctx target data cache).result = Except.error em)
    (hd : (delegate_call true host mctx target data cache).result
        = Except.error ed) :
    (static_call true host sctx target data cache).cache = Storage.flush cache
    ∧ (call true host mctx target data cache).cache = Storage.clear cache
    ∧ (delegate_call true host mctx target data cache).cache
        = Storage.clear cache :=
  ⟨rfl, rfl, rfl⟩

/-- Witness for `cache_action_survives_call_failure`: a faulting host makes
every entry point fail, yet the cache ends up flushed (static) or cleared
(mutating, delegate). -/
theorem cache_action_survives_call_failure_witness :
    (static_call true (fun _ => HostOutcome.fault) ⟨5⟩ 2 [3]
        ⟨[(1, 2)], [(3, 4)], []⟩).cache = Storage.flush ⟨[(1, 2)], [(3, 4)], []⟩
    ∧ (call true (fun _ => HostOutcome.fault) ⟨5, 0⟩ 2 [3]
        ⟨[(1, 2)], [(3, 4)], []⟩).cache = Storage.clear ⟨[(1, 2)], [(3, 4)], []⟩
    ∧ (delegate_call true (fun _ => HostOutcome.fault) ⟨5, 0⟩ 2 [3]
        ⟨[(1, 2)], [(3, 4)], []⟩).cache
        = Storage.clear ⟨[(1, 2)], [(3, 4)], []⟩ :=
  cache_action_survives_call_failure (fun _ => HostOutcome.fault) ⟨5⟩ ⟨5, 0⟩ 2
    [3] ⟨[(1, 2)], [(3, 4)], []⟩ (Error.Revert []) (Error.Revert [])
    (Error.Revert []) rfl rfl rfl

end StylusCall
